import Mathlib

/-!
Verification development for the binance-live market-data ingestion pipeline.

The Go sources are shallowly embedded: pure functions become Lean functions,
stateful repository operations become explicit state passing over a store
type, machine integers (int64) become `Int`, Go `float64` values carried in
the data model become `ℚ` (the claims checked here do not depend on
floating-point rounding), and fallible code returns `Option`/`Except`.
-/

namespace BinanceLive

/-! ## Data model (internal/models/models.go) -/

/-- Mirrors `models.Kline` (internal/models/models.go). Timestamps are Unix
milliseconds stored in int64, embedded as `Int`; float64 price/volume fields
are embedded as `ℚ`. -/
structure Kline where
  symbol : String
  interval : String
  openTime : Int
  closeTime : Int
  openPrice : ℚ
  highPrice : ℚ
  lowPrice : ℚ
  closePrice : ℚ
  volume : ℚ
  quoteVolume : ℚ
  tradesCount : Int
  takerBuyVolume : ℚ
  takerBuyQuoteVolume : ℚ
  createdAt : Int
deriving Repr, DecidableEq

instance : Inhabited Kline :=
  ⟨⟨"", "", 0, 0, 0, 0, 0, 0, 0, 0, 0, 0, 0, 0⟩⟩

/-- Mirrors `models.SyncStatus` (internal/models/models.go): the checkpoint
record keyed by (symbol, data_type, interval). `Interval *string` becomes
`Option String`. -/
structure SyncStatus where
  symbol : String
  dataType : String
  interval : Option String
  lastSyncTime : Int
  lastDataTime : Int
  status : String
  errorMessage : Option String
  updatedAt : Int
deriving Repr, DecidableEq

/-! ## Checkpoint store (src/sql/queries/sync_status.sql and
`SyncStatusRepository`, src/unnamed/part_012)

The `sync_status` table is embedded as a finite map from the normalized key
`(symbol, data_type, COALESCE(interval, ''))` to the stored row: all lookup
and upsert predicates in the source coalesce an absent interval to the empty
string, so the store is keyed by the coalesced triple. -/

/-- Normalized checkpoint key: `(symbol, data_type, COALESCE(interval, ''))`. -/
def ckptKey (symbol dataType : String) (interval : Option String) :
    String × String × String :=
  (symbol, dataType, interval.getD "")

/-- The `sync_status` table: rows addressed by their normalized key. -/
def CkptStore : Type := String × String × String → Option SyncStatus

/-- Embeds the `UpdateLastDataTime` query (sql/queries/sync_status.sql:18-25):
`UPDATE sync_status SET last_data_time = $4, last_sync_time = now,
status = 'active', error_message = NULL WHERE` the coalesced key matches.
An UPDATE with no matching row is a no-op. `now` stands for the server clock
read by `EXTRACT(EPOCH FROM NOW()) * 1000`. -/
def updateLastDataTime (store : CkptStore) (symbol dataType : String)
    (interval : Option String) (lastDataTime now : Int) : CkptStore :=
  fun k =>
    if k = ckptKey symbol dataType interval then
      (store k).map fun r =>
        { r with
          lastDataTime := lastDataTime
          lastSyncTime := now
          status := "active"
          errorMessage := none
          updatedAt := now }
    else store k

/-- Embeds the `UpsertSyncStatus` query (sql/queries/sync_status.sql:7-16):
INSERT ... ON CONFLICT (key) DO UPDATE SET every non-key column to the
excluded row's value; `now` stands for the clock stamped into `updated_at`. -/
def upsertSyncStatus (store : CkptStore) (row : SyncStatus) (now : Int) :
    CkptStore :=
  fun k =>
    if k = ckptKey row.symbol row.dataType row.interval then
      some { row with updatedAt := now }
    else store k

/-- A successfully applied checkpoint update: either
`SyncStatusRepository.UpdateLastDataTime` (a touch carrying the new
`last_data_time`) or `SyncStatusRepository.UpsertSyncStatus` (a full row
write). Both carry the clock value observed during execution. -/
inductive CkptOp where
  | touch (symbol dataType : String) (interval : Option String)
      (lastDataTime now : Int)
  | upsert (row : SyncStatus) (now : Int)
deriving Repr, DecidableEq

/-- The normalized key an update addresses. -/
def CkptOp.key : CkptOp → String × String × String
  | .touch symbol dataType interval _ _ => ckptKey symbol dataType interval
  | .upsert row _ => ckptKey row.symbol row.dataType row.interval

/-- The `last_data_time` argument the updater observed. -/
def CkptOp.dataTime : CkptOp → Int
  | .touch _ _ _ lastDataTime _ => lastDataTime
  | .upsert row _ => row.lastDataTime

/-- Applies one checkpoint update to the store. -/
def applyCkptOp (store : CkptStore) : CkptOp → CkptStore
  | .touch symbol dataType interval lastDataTime now =>
      updateLastDataTime store symbol dataType interval lastDataTime now
  | .upsert row now => upsertSyncStatus store row now

/-- Applies a sequence of checkpoint updates in order. -/
def applyCkptOps (store : CkptStore) (ops : List CkptOp) : CkptStore :=
  ops.foldl applyCkptOp store

/-! ## Backfill sync-window computation
(`DataSyncService.syncKlinesForSymbol`, internal/service/data_sync.go:147-158) -/

/-- One hour in Unix milliseconds. -/
def msPerHour : Int := 3600000

/-- Embeds the start/end computation of `syncKlinesForSymbol`: when a
checkpoint row exists with `LastDataTime != 0` the start is that value,
otherwise the start is `now - maxSyncHours` hours; the window end is `now`.
All times are Unix milliseconds. -/
def computeSyncWindow (syncStatus : Option SyncStatus)
    (now maxSyncHours : Int) : Int × Int :=
  let startTime :=
    match syncStatus with
    | some st =>
        if st.lastDataTime ≠ 0 then st.lastDataTime
        else now - maxSyncHours * msPerHour
    | none => now - maxSyncHours * msPerHour
  (startTime, now)

/-! ## Historical kline decoding (`ParseKlineResponse`,
internal/binance/types.go:7-22)

A `KlineResponse` is `[]interface{}` produced by `encoding/json`: JSON
numbers decode to float64 (embedded as `ℚ`), JSON strings to Go strings;
any other decoded value is collapsed into `other`, since the parser only
type-asserts float64 and string. -/

/-- A Go `interface{}` element of a kline response row. -/
inductive GoVal where
  | num (q : ℚ)
  | str (s : String)
  | other
deriving Repr, DecidableEq

/-- Outcome of running a Go computation that can panic at runtime. -/
inductive GoResult (α : Type) where
  | ok (value : α)
  | panicked
deriving Repr, DecidableEq

instance : Monad GoResult where
  pure := .ok
  bind := fun r f =>
    match r with
    | .ok a => f a
    | .panicked => .panicked

/-- Go `data[i].(float64)`: panics via index-out-of-range when `i` is past
the end of the slice, and via a failed type assertion when element `i` is
not a float64. -/
def goIndexFloat (data : List GoVal) (i : Nat) : GoResult ℚ :=
  match data.get? i with
  | some (.num q) => .ok q
  | _ => .panicked

/-- Go `data[i].(string)`: panics unless element `i` exists and is a string. -/
def goIndexString (data : List GoVal) (i : Nat) : GoResult String :=
  match data.get? i with
  | some (.str s) => .ok s
  | _ => .panicked

/-- Go `int64(x)` for a float64 `x`: truncation toward zero. -/
def goInt64 (q : ℚ) : Int :=
  Int.tdiv q.num (q.den : Int)

/-- Mirrors `binance.KlineData` (internal/binance/types.go:25-37). -/
structure KlineData where
  OpenTime : Int
  Open : String
  High : String
  Low : String
  Close : String
  Volume : String
  CloseTime : Int
  QuoteAssetVolume : String
  NumberOfTrades : Int
  TakerBuyBaseAssetVolume : String
  TakerBuyQuoteAssetVolume : String
deriving Repr, DecidableEq

/-- Embeds `ParseKlineResponse` (internal/binance/types.go:7-22). The Go
function indexes positions 0..10 with unchecked type assertions and always
returns a nil error; the `GoResult` layer records that a malformed row makes
the Go code panic rather than return through the error result. -/
def ParseKlineResponse (data : List GoVal) :
    GoResult (KlineData × Option String) := do
  let openTime ← goIndexFloat data 0
  let openStr ← goIndexString data 1
  let highStr ← goIndexString data 2
  let lowStr ← goIndexString data 3
  let closeStr ← goIndexString data 4
  let volumeStr ← goIndexString data 5
  let closeTime ← goIndexFloat data 6
  let quoteVolumeStr ← goIndexString data 7
  let numTrades ← goIndexFloat data 8
  let takerBaseStr ← goIndexString data 9
  let takerQuoteStr ← goIndexString data 10
  pure
    ({ OpenTime := goInt64 openTime
       Open := openStr
       High := highStr
       Low := lowStr
       Close := closeStr
       Volume := volumeStr
       CloseTime := goInt64 closeTime
       QuoteAssetVolume := quoteVolumeStr
       NumberOfTrades := goInt64 numTrades
       TakerBuyBaseAssetVolume := takerBaseStr
       TakerBuyQuoteAssetVolume := takerQuoteStr },
     none)

/-- The error component of a `ParseKlineResponse` run: the Go function's
`error` return value when it returns, `none` when it panics (a panic never
reaches the error return). -/
def parseKlineErrReturn : GoResult (KlineData × Option String) → Option String
  | .ok r => r.2
  | .panicked => none

/-! ## Float parsing in converters (`strconv.ParseFloat` with the error
discarded, internal/service/stream.go:215-241 and
internal/service/data_sync.go:260-286)

`goParseFloat` models `strconv.ParseFloat(s, 64)` on the decimal syntax
`[+-]? digits [. digits] [eE [+-] digits]` with the value read exactly into
`ℚ`; a string outside this syntax yields `none`, and Go returns the value 0
together with a syntax error there. Binary rounding, hex-float forms and
inf/nan literals are not modelled — no claim checked here depends on them. -/

/-- Value of a digit run, most significant first. -/
def digitsToNat (cs : List Char) : Nat :=
  cs.foldl (fun acc c => acc * 10 + (c.toNat - 48)) 0

/-- Splits a leading sign; `true` means negative. -/
def splitSign : List Char → Bool × List Char
  | '+' :: rest => (false, rest)
  | '-' :: rest => (true, rest)
  | cs => (false, cs)

/-- Decimal-syntax model of `strconv.ParseFloat(s, 64)`: `none` models the
syntax-error outcome. -/
def goParseFloat (s : String) : Option ℚ :=
  let (neg, cs1) := splitSign s.data
  let ip := cs1.takeWhile Char.isDigit
  let cs2 := cs1.drop ip.length
  let (fp, cs3) :=
    match cs2 with
    | '.' :: rest => (rest.takeWhile Char.isDigit,
        rest.drop (rest.takeWhile Char.isDigit).length)
    | _ => (([] : List Char), cs2)
  if ip.length = 0 ∧ fp.length = 0 then none
  else
    let mant : ℚ :=
      (digitsToNat ip : ℚ) + (digitsToNat fp : ℚ) / ((10 : ℚ) ^ fp.length)
    let signed : ℚ := if neg then -mant else mant
    match cs3 with
    | [] => some signed
    | c :: rest =>
      if c = 'e' ∨ c = 'E' then
        let (eneg, rest2) := splitSign rest
        let ed := rest2.takeWhile Char.isDigit
        let rest3 := rest2.drop ed.length
        if ed.length = 0 ∨ rest3 ≠ [] then none
        else
          let expVal : Int :=
            if eneg then -(digitsToNat ed : Int) else (digitsToNat ed : Int)
          some (signed * (10 : ℚ) ^ expVal)
      else none

/-- Go `v, _ := strconv.ParseFloat(s, 64)`: the parsed value with the error
discarded; a syntax error leaves `v = 0`. -/
def parseFloatOrZero (s : String) : ℚ :=
  (goParseFloat s).getD 0

/-! ## Streaming kline events and handlers
(internal/binance/types.go:100-126, internal/service/stream.go) -/

/-- Mirrors `binance.WSKline` (internal/binance/types.go:109-126); field
names follow the Go struct. -/
structure WSKline where
  StartTime : Int
  EndTime : Int
  Symbol : String
  Interval : String
  FirstTradeID : Int
  LastTradeID : Int
  Open : String
  Close : String
  High : String
  Low : String
  Volume : String
  NumberOfTrades : Int
  IsClosed : Bool
  QuoteVolume : String
  TakerBuyBaseAssetVolume : String
  TakerBuyQuoteAssetVolume : String
deriving Repr, DecidableEq

/-- Mirrors `binance.WSKlineEvent` (internal/binance/types.go:101-106). -/
structure WSKlineEvent where
  EventType : String
  EventTime : Int
  Symbol : String
  Kline : WSKline
deriving Repr, DecidableEq

/-- Embeds `StreamService.convertWSKlineToModel`
(internal/service/stream.go:215-241). Every numeric string field is parsed
with `strconv.ParseFloat` and the error discarded; the second component is
the function's error return, which the source fixes to nil. `nowMs` stands
for `time.Now().UnixMilli()`. -/
def convertWSKlineToModel (event : WSKlineEvent) (symbol interval : String)
    (nowMs : Int) : Kline × Option String :=
  ({ symbol := symbol
     interval := interval
     openTime := event.Kline.StartTime
     closeTime := event.Kline.EndTime
     openPrice := parseFloatOrZero event.Kline.Open
     highPrice := parseFloatOrZero event.Kline.High
     lowPrice := parseFloatOrZero event.Kline.Low
     closePrice := parseFloatOrZero event.Kline.Close
     volume := parseFloatOrZero event.Kline.Volume
     quoteVolume := parseFloatOrZero event.Kline.QuoteVolume
     tradesCount := event.Kline.NumberOfTrades
     takerBuyVolume := parseFloatOrZero event.Kline.TakerBuyBaseAssetVolume
     takerBuyQuoteVolume := parseFloatOrZero event.Kline.TakerBuyQuoteAssetVolume
     createdAt := nowMs },
   none)

/-- Embeds `DataSyncService.convertToModelKline`
(internal/service/data_sync.go:260-286); same discarded-error parses over
the historical `KlineData` row. -/
def convertToModelKline (symbol interval : String) (data : KlineData)
    (nowMs : Int) : Kline × Option String :=
  ({ symbol := symbol
     interval := interval
     openTime := data.OpenTime
     closeTime := data.CloseTime
     openPrice := parseFloatOrZero data.Open
     highPrice := parseFloatOrZero data.High
     lowPrice := parseFloatOrZero data.Low
     closePrice := parseFloatOrZero data.Close
     volume := parseFloatOrZero data.Volume
     quoteVolume := parseFloatOrZero data.QuoteAssetVolume
     tradesCount := data.NumberOfTrades
     takerBuyVolume := parseFloatOrZero data.TakerBuyBaseAssetVolume
     takerBuyQuoteVolume := parseFloatOrZero data.TakerBuyQuoteAssetVolume
     createdAt := nowMs },
   none)

/-- One side effect attempted by the kline stream handler: the durable
upsert (`klineRepo.Insert`), the bus publish (`publisher.PublishKline`), or
the checkpoint touch (`syncStatusRepo.UpdateLastDataTime`). -/
inductive Effect where
  | insertKline (k : Kline)
  | publishKline (k : Kline)
  | touchLastDataTime (symbol dataType : String) (interval : Option String)
      (t : Int)
deriving Repr, DecidableEq

/-- Embeds `StreamService.handleKlineEvent`
(internal/service/stream.go:106-140) from the point where the event has
been unmarshalled: a kline with `x = false` is dropped with a nil return
before any effect; a closed kline is converted and then inserted, published
and checkpointed in order (each of those failures is only logged, so the
attempted-effect list does not depend on their outcomes). The second
component is the handler's error return. -/
def handleKlineEvent (event : WSKlineEvent) (symbol interval : String)
    (nowMs : Int) : List Effect × Option String :=
  if !event.Kline.IsClosed then ([], none)
  else
    match convertWSKlineToModel event symbol interval nowMs with
    | (_, some e) => ([], some e)
    | (kline, none) =>
        ([.insertKline kline,
          .publishKline kline,
          .touchLastDataTime symbol "kline" (some interval) kline.openTime],
         none)

/-! ## Batched kline persistence (`KlineRepository.BatchInsert`,
internal/repository/kline.go:54-146)

The database is embedded as the list of committed records; a transaction
either commits a whole chunk (appending it) or leaves the state unchanged.
The per-record insert outcomes and the commit outcome are supplied by an
environment, standing for the database's responses. The ~200 ms inter-chunk
delay and the context-cancellation check between chunks are timing behavior
with no effect on the committed state and are not modelled. -/

/-- Database responses: the error (if any) each record's `InsertKline`
statement produces inside the transaction, and the error (if any) of the
chunk's `Commit`. -/
structure DBEnv where
  insertErr : Kline → Option String
  commitErr : List Kline → Option String

/-- First failing insert of a chunk, in record order — the Go loop returns
at the first failing `InsertKline`. -/
def firstInsertErr (env : DBEnv) (klines : List Kline) : Option String :=
  klines.findSome? env.insertErr

/-- Embeds `KlineRepository.executeBatchInsert`
(internal/repository/kline.go:96-146). Result components: the committed
state, the function's error return, and whether the deferred rollback ran
(it runs exactly when the `committed` flag was never set). -/
def executeBatchInsert (env : DBEnv) (db klines : List Kline) :
    List Kline × Option String × Bool :=
  match firstInsertErr env klines with
  | some e => (db, some e, true)
  | none =>
    match env.commitErr klines with
    | some e => (db, some e, true)
    | none => (db ++ klines, none, false)

/-- The chunking constant `maxBatchSize` (internal/repository/kline.go:61). -/
def maxBatchSize : Nat := 100

/-- Consecutive chunks of at most `chunkSize` records, as produced by the
`for i := 0; i < len(klines); i += chunkSize` loop of `batchInsertChunked`.
The fuel argument (instantiated with the list length) only forces
termination; with a positive chunk size each step consumes at least one
record, so the fuel never runs out. -/
def chunkListGo {α : Type} (chunkSize : Nat) : Nat → List α → List (List α)
  | 0, _ => []
  | _, [] => []
  | fuel + 1, ks => ks.take chunkSize :: chunkListGo chunkSize fuel (ks.drop chunkSize)

/-- The chunks `klines[i:min(i+chunkSize, len)]` in loop order. -/
def chunkList {α : Type} (chunkSize : Nat) (ks : List α) : List (List α) :=
  chunkListGo chunkSize ks.length ks

/-- The error a chunk produces when run through `executeBatchInsert`: the
first failing insert's error, else the commit's error, else none. It does
not depend on the committed state. -/
def chunkErr (env : DBEnv) (klines : List Kline) : Option String :=
  match firstInsertErr env klines with
  | some e => some e
  | none => env.commitErr klines

/-- The chunk loop of `batchInsertChunked`
(internal/repository/kline.go:71-93): each chunk runs through
`executeBatchInsert`; the first chunk error is returned and the remaining
chunks are not attempted. -/
def runChunks (env : DBEnv) : List Kline → List (List Kline) →
    List Kline × Option String
  | db, [] => (db, none)
  | db, c :: cs =>
    match executeBatchInsert env db c with
    | (db2, none, _) => runChunks env db2 cs
    | (db2, some e, _) => (db2, some e)

/-- Embeds `KlineRepository.BatchInsert` (internal/repository/kline.go:54-68):
empty input is a nil no-op; batches over `maxBatchSize` records go through
the chunked path; smaller batches run as a single transaction. -/
def BatchInsert (env : DBEnv) (db klines : List Kline) :
    List Kline × Option String :=
  if klines.length = 0 then (db, none)
  else if maxBatchSize < klines.length then
    runChunks env db (chunkList maxBatchSize klines)
  else
    let r := executeBatchInsert env db klines
    (r.1, r.2.1)

/-! ## WebSocket reconnect loop (`WSClient.Start`,
internal/binance/websocket.go:71-130)

Each loop iteration either fails to dial, or dials successfully and then
reads until a read error ends the session. The environment's behavior is a
finite trace of these outcomes; explicit stop and context cancellation are
orthogonal exits not exercised by the reconnect-bound claim. -/

/-- Outcome of one iteration of the `Start` loop. -/
inductive DialOutcome where
  | dialFail
  | dialOkThenReadErr
deriving Repr, DecidableEq

/-- How the modelled `Start` run ended: `exhausted` is the
`max reconnect attempts reached` error return; `outOfTrace` means the loop
was still running when the supplied trace ended. -/
inductive WSRunResult where
  | exhausted
  | outOfTrace
deriving Repr, DecidableEq

/-- Embeds the `Start` loop with the current `attempt` counter threaded: a
dial failure increments the counter and returns the exhausted error once
`attempt >= maxReconnectAttempts`; a successful dial resets the counter to
zero and the subsequent read error only leads back to a redial. -/
def wsStartGo (maxReconnectAttempts : Nat) : Nat → List DialOutcome → WSRunResult
  | _, [] => .outOfTrace
  | attempt, .dialFail :: rest =>
      if maxReconnectAttempts ≤ attempt + 1 then .exhausted
      else wsStartGo maxReconnectAttempts (attempt + 1) rest
  | _, .dialOkThenReadErr :: rest => wsStartGo maxReconnectAttempts 0 rest

/-- `WSClient.Start`: the loop begins with `attempt := 0`. -/
def wsStart (maxReconnectAttempts : Nat) (trace : List DialOutcome) :
    WSRunResult :=
  wsStartGo maxReconnectAttempts 0 trace

/-! ## REST response handling (`RESTClient.doRequest`,
internal/binance/rest.go:80-91) -/

/-- An HTTP response as seen after transport succeeded and the body was
read. -/
structure HTTPResponse where
  statusCode : Nat
  body : String
deriving Repr, DecidableEq

/-- Mirrors `binance.APIError` (internal/binance/types.go:183-186). -/
structure APIError where
  code : Int
  message : String
deriving Repr, DecidableEq

/-- The two error shapes `doRequest` can surface for a non-200 response:
the typed `*APIError` (upstream code preserved), or the generic
`API error: status %d, body: %s` error carrying the status and the body. -/
inductive ReqError where
  | api (code : Int) (message : String)
  | generic (status : Nat) (body : String)
deriving Repr, DecidableEq

/-- Embeds the response-handling tail of `RESTClient.doRequest`
(internal/binance/rest.go:80-91). `unmarshalAPIError` stands for
`json.Unmarshal(body, &apiErr)`, succeeding exactly when the body
unmarshals into the `{code, msg}` struct. A 200 response returns the body
unchanged; any other status returns an error and no body. -/
def doRequest (unmarshalAPIError : String → Option APIError)
    (resp : HTTPResponse) : Except ReqError String :=
  if resp.statusCode ≠ 200 then
    match unmarshalAPIError resp.body with
    | some apiErr => .error (.api apiErr.code apiErr.message)
    | none => .error (.generic resp.statusCode resp.body)
  else
    .ok resp.body

/-! ## Publishers (src/unnamed/part_014)

The protobuf messages from proto/binance.proto are embedded as Lean
structures; `LiveData` is the envelope with the oneof payload. -/

/-- Mirrors `models.DepthSnapshot` (internal/models/models.go:53-61):
`bids`/`asks` hold the serialized JSON array-of-pairs strings. -/
structure DepthSnapshot where
  id : Int
  symbol : String
  timestamp : Int
  lastUpdateID : Int
  bids : String
  asks : String
  createdAt : Int
deriving Repr, DecidableEq

/-- Mirrors the proto `DataType` enum. -/
inductive ProtoDataType where
  | unspecified
  | kline
  | ticker
  | depth
  | trade
deriving Repr, DecidableEq

/-- Mirrors the proto `KlineData` message built by
`ProtobufPublisher.PublishKline`. -/
structure ProtoKlineData where
  interval : String
  openTime : Int
  closeTime : Int
  openPrice : ℚ
  highPrice : ℚ
  lowPrice : ℚ
  closePrice : ℚ
  volume : ℚ
  quoteVolume : ℚ
  tradesCount : Int
  takerBuyVolume : ℚ
  takerBuyQuoteVolume : ℚ
deriving Repr, DecidableEq

/-- One order-book level of the proto `DepthData` message. The proto
definition of this message is not under src/; modelled from the spec:
price and quantity are decimal strings. Only the emptiness of the level
lists matters to the claims below. -/
structure PriceLevel where
  price : String
  quantity : String
deriving Repr, DecidableEq

/-- Mirrors the proto `DepthData` message built by
`ProtobufPublisher.PublishDepth`. -/
structure ProtoDepthData where
  lastUpdateId : Int
  bids : List PriceLevel
  asks : List PriceLevel
deriving Repr, DecidableEq

/-- The oneof payload of the proto `LiveData` envelope (only the variants
needed by the claims are populated). -/
inductive LivePayload where
  | kline (k : ProtoKlineData)
  | depth (d : ProtoDepthData)
deriving Repr, DecidableEq

/-- Mirrors the proto `LiveData` envelope. -/
structure LiveData where
  type : ProtoDataType
  symbol : String
  timestamp : Int
  payload : LivePayload
deriving Repr, DecidableEq

/-- Go `/` on int64: division truncating toward zero. -/
def int64Div (a b : Int) : Int :=
  Int.tdiv a b

/-- The `LiveData` message `ProtobufPublisher.PublishKline`
(src/unnamed/part_014:29-73) builds and hands to
`redis.PublishProtobuf`/`SetProtobuf`: payload timestamps are the model's
milliseconds divided by 1000, the envelope timestamp is the raw
millisecond `OpenTime`. -/
def protobufPublishKlineMessage (kline : Kline) : LiveData :=
  { type := .kline
    symbol := kline.symbol
    timestamp := kline.openTime
    payload := .kline
      { interval := kline.interval
        openTime := int64Div kline.openTime 1000
        closeTime := int64Div kline.closeTime 1000
        openPrice := kline.openPrice
        highPrice := kline.highPrice
        lowPrice := kline.lowPrice
        closePrice := kline.closePrice
        volume := kline.volume
        quoteVolume := kline.quoteVolume
        tradesCount := kline.tradesCount
        takerBuyVolume := kline.takerBuyVolume
        takerBuyQuoteVolume := kline.takerBuyQuoteVolume } }

/-- The kline payload map of `JSONPublisher.PublishKline`
(src/unnamed/part_014:294-333), with the map's entries as fields. -/
structure JSONKlinePayload where
  interval : String
  openTime : Int
  closeTime : Int
  openPrice : ℚ
  highPrice : ℚ
  lowPrice : ℚ
  closePrice : ℚ
  volume : ℚ
  quoteVolume : ℚ
  tradesCount : Int
  takerBuyVolume : ℚ
  takerBuyQuoteVolume : ℚ
deriving Repr, DecidableEq

/-- Mirrors `models.LiveData` as built for a kline by the JSON publisher. -/
structure JSONKlineLiveData where
  type : String
  symbol : String
  timestamp : Int
  data : JSONKlinePayload
deriving Repr, DecidableEq

/-- The `models.LiveData` value `JSONPublisher.PublishKline` builds and
hands to `redis.PublishJSON`/`SetJSON`: same divide-by-1000 payload
timestamps, same millisecond envelope timestamp. -/
def jsonPublishKlineMessage (kline : Kline) : JSONKlineLiveData :=
  { type := "kline"
    symbol := kline.symbol
    timestamp := kline.openTime
    data :=
      { interval := kline.interval
        openTime := int64Div kline.openTime 1000
        closeTime := int64Div kline.closeTime 1000
        openPrice := kline.openPrice
        highPrice := kline.highPrice
        lowPrice := kline.lowPrice
        closePrice := kline.closePrice
        volume := kline.volume
        quoteVolume := kline.quoteVolume
        tradesCount := kline.tradesCount
        takerBuyVolume := kline.takerBuyVolume
        takerBuyQuoteVolume := kline.takerBuyQuoteVolume } }

/-- Embeds `parsePriceLevels` (src/unnamed/part_014:246-253): the source's
placeholder returns an empty slice and a nil error for every input string. -/
def parsePriceLevels (jsonData : String) : Except String (List PriceLevel) :=
  .ok []

/-- The `LiveData` message `ProtobufPublisher.PublishDepth`
(src/unnamed/part_014:146-193) builds: bids and asks come from
`parsePriceLevels` over the snapshot's serialized strings, and a parse
error would abort the publish with an error. -/
def protobufPublishDepthMessage (depth : DepthSnapshot) :
    Except String LiveData := do
  let bids ← parsePriceLevels depth.bids
  let asks ← parsePriceLevels depth.asks
  .ok
    { type := .depth
      symbol := depth.symbol
      timestamp := depth.timestamp
      payload := .depth
        { lastUpdateId := depth.lastUpdateID
          bids := bids
          asks := asks } }

/-! ## Helper lemmas -/

/-- The error return of a `GoResult` bind is `none` whenever every
continuation result has a `none` error return. -/
theorem goResult_bind_errReturn {α : Type} (r : GoResult α)
    (f : α → GoResult (KlineData × Option String))
    (h : ∀ a, parseKlineErrReturn (f a) = none) :
    parseKlineErrReturn (r >>= f) = none := by
  cases r with
  | ok a => exact h a
  | panicked => rfl

/-- A checkpoint update addressed at key `k` applied to a store holding a
row at `k` leaves `last_data_time` equal to the update's timestamp
argument. -/
theorem applyCkptOp_map_lastDataTime (store : CkptStore) (op : CkptOp)
    (k : String × String × String) (hk : op.key = k)
    (hs : (store k).isSome = true) :
    ((applyCkptOp store op) k).map SyncStatus.lastDataTime =
      some op.dataTime := by
  cases op with
  | touch s d i t n =>
      subst hk
      obtain ⟨r, hr⟩ := Option.isSome_iff_exists.mp hs
      simp only [CkptOp.key] at hr
      simp [applyCkptOp, updateLastDataTime, CkptOp.key, CkptOp.dataTime, hr]
  | upsert row n =>
      subst hk
      simp [applyCkptOp, upsertSyncStatus, CkptOp.key, CkptOp.dataTime]

/-- A checkpoint update addressed at key `k` preserves the presence of a
row at `k`. -/
theorem applyCkptOp_isSome (store : CkptStore) (op : CkptOp)
    (k : String × String × String) (hk : op.key = k)
    (hs : (store k).isSome = true) :
    ((applyCkptOp store op) k).isSome = true := by
  cases op with
  | touch s d i t n =>
      subst hk
      simpa [applyCkptOp, updateLastDataTime, CkptOp.key] using hs
  | upsert row n =>
      subst hk
      simp [applyCkptOp, upsertSyncStatus, CkptOp.key]

/-- `executeBatchInsert` either commits the whole chunk or leaves the
committed state unchanged, as governed by `chunkErr`; the rollback flag is
set exactly on the error path. -/
theorem executeBatchInsert_eq_chunkErr (env : DBEnv) (db klines : List Kline) :
    executeBatchInsert env db klines =
      match chunkErr env klines with
      | some e => (db, some e, true)
      | none => (db ++ klines, none, false) := by
  unfold executeBatchInsert chunkErr
  cases firstInsertErr env klines with
  | some e => rfl
  | none => cases env.commitErr klines with
    | some e => rfl
    | none => rfl

/-- Joining the chunks recovers the input list (with positive chunk size
and enough fuel). -/
theorem chunkListGo_join {α : Type} (cs : Nat) (hcs : 0 < cs) :
    ∀ (fuel : Nat) (ks : List α), ks.length ≤ fuel →
      (chunkListGo cs fuel ks).flatten = ks := by
  intro fuel
  induction fuel with
  | zero =>
      intro ks hk
      have : ks = [] := List.length_eq_zero.mp (Nat.le_zero.mp hk)
      subst this
      rfl
  | succ n ih =>
      intro ks hk
      cases ks with
      | nil => rfl
      | cons x t =>
          simp only [chunkListGo, List.flatten_cons]
          rw [ih ((x :: t).drop cs) ?_]
          · exact List.take_append_drop cs (x :: t)
          · rw [List.length_drop]
            have hlen : (x :: t).length ≤ n + 1 := hk
            omega

/-- Every chunk holds at most `cs` records. -/
theorem chunkListGo_mem_length {α : Type} (cs : Nat) :
    ∀ (fuel : Nat) (ks : List α), ∀ c ∈ chunkListGo cs fuel ks,
      c.length ≤ cs := by
  intro fuel
  induction fuel with
  | zero =>
      intro ks c hc
      simp [chunkListGo] at hc
  | succ n ih =>
      intro ks c hc
      cases ks with
      | nil => simp [chunkListGo] at hc
      | cons x t =>
          simp only [chunkListGo, List.mem_cons] at hc
          rcases hc with h | h
          · subst h
            simp [List.length_take]
          · exact ih _ c h

/-- Running the chunk loop past an all-successful chunk list commits those
chunks in order and leaves the loop on the remainder. -/
theorem runChunks_ok_prefix (env : DBEnv) :
    ∀ (pre : List (List Kline)) (db : List Kline)
      (rest : List (List Kline)),
      (∀ c ∈ pre, chunkErr env c = none) →
      runChunks env db (pre ++ rest) =
        runChunks env (db ++ pre.flatten) rest := by
  intro pre
  induction pre with
  | nil =>
      intro db rest _
      simp
  | cons c cs ih =>
      intro db rest h
      have hc : chunkErr env c = none := h c (by simp)
      have hcs : ∀ x ∈ cs, chunkErr env x = none := by
        intro x hx
        exact h x (by simp [hx])
      simp only [List.cons_append, runChunks, executeBatchInsert_eq_chunkErr,
        hc, List.append_eq]
      rw [ih (db ++ c) rest hcs]
      simp [List.append_assoc]

/-- A failing chunk at the head of the loop surfaces its error and leaves
the committed state untouched. -/
theorem runChunks_first_err (env : DBEnv) (db : List Kline)
    (c : List Kline) (post : List (List Kline)) (e : String)
    (hc : chunkErr env c = some e) :
    runChunks env db (c :: post) = (db, some e) := by
  simp only [runChunks, executeBatchInsert_eq_chunkErr, hc]

/-! ## Claim theorems -/

/-- C1 counterexample: `UpdateLastDataTime` performs an unconditional
`SET last_data_time = $4`, so a touch carrying a smaller timestamp than the
stored one overwrites it: after upserting a row with `last_data_time = 10`
and then touching with `5`, the stored value is `5`, not the maximum `10` of
the observed arguments. -/
theorem checkpoint_overwrite_counterexample :
    ((applyCkptOps (fun _ => none)
        [CkptOp.upsert
            { symbol := "BTCUSDT", dataType := "kline",
              interval := some "1h", lastSyncTime := 0, lastDataTime := 10,
              status := "active", errorMessage := none, updatedAt := 0 } 0,
         CkptOp.touch "BTCUSDT" "kline" (some "1h") 5 1])
        (ckptKey "BTCUSDT" "kline" (some "1h"))).map SyncStatus.lastDataTime =
      some 5 ∧
    max (10 : Int) 5 = 10 ∧ (5 : Int) ≠ 10 := by
  refine ⟨?_, by decide, by decide⟩
  decide

/-- C1 (amended): the stored `last_data_time` after a sequence of
successfully applied checkpoint updates at one key equals the timestamp
argument of the LAST update applied (last-write-wins), not the maximum of
all observed arguments — both `UpdateLastDataTime` and `UpsertSyncStatus`
overwrite unconditionally. -/
theorem checkpoint_last_write_wins :
    ∀ (ops : List CkptOp) (store : CkptStore) (k : String × String × String)
      (op : CkptOp),
      (∀ o ∈ ops, CkptOp.key o = k) →
      (store k).isSome = true →
      ops.getLast? = some op →
      ((applyCkptOps store ops) k).map SyncStatus.lastDataTime =
        some op.dataTime := by
  intro ops
  induction ops with
  | nil =>
      intro store k op _ _ hlast
      simp at hlast
  | cons o rest ih =>
      intro store k op hkeys hsome hlast
      cases rest with
      | nil =>
          simp at hlast
          subst hlast
          have hk := hkeys o (by simp)
          simpa [applyCkptOps] using
            applyCkptOp_map_lastDataTime store o k hk hsome
      | cons r rs =>
          have hk := hkeys o (by simp)
          have hkeys2 : ∀ x ∈ r :: rs, CkptOp.key x = k := by
            intro x hx
            exact hkeys x (by simp [hx])
          have hlast2 : (r :: rs).getLast? = some op := by
            simpa using hlast
          have hsome2 := applyCkptOp_isSome store o k hk hsome
          simpa [applyCkptOps] using
            ih (applyCkptOp store o) k op hkeys2 hsome2 hlast2

/-- Witness for the amended C1 theorem: a store holding a row at
`(BTCUSDT, kline, 1h)` receives two touches with timestamps 5 then 7; the
stored `last_data_time` ends at 7, the last argument applied. -/
theorem checkpoint_last_write_wins_witness :
    ((applyCkptOps
        (fun k => if k = ckptKey "BTCUSDT" "kline" (some "1h") then
            some { symbol := "BTCUSDT", dataType := "kline",
                   interval := some "1h", lastSyncTime := 0,
                   lastDataTime := 3, status := "active",
                   errorMessage := none, updatedAt := 0 }
          else none)
        [CkptOp.touch "BTCUSDT" "kline" (some "1h") 5 1,
         CkptOp.touch "BTCUSDT" "kline" (some "1h") 7 2])
        (ckptKey "BTCUSDT" "kline" (some "1h"))).map SyncStatus.lastDataTime =
      some 7 :=
  checkpoint_last_write_wins _ _ _
    (CkptOp.touch "BTCUSDT" "kline" (some "1h") 7 2)
    (by decide) (by decide) (by decide)

/-- C2 counterexample: with a checkpoint present whose `last_data_time` is
older than `now − max_sync_hours` (here 1 ms versus a 24-hour horizon
before `now = 1700028800000`), the computed start is that stale
`last_data_time`, strictly earlier than `now − max_sync_hours` — the claim
that the start never lies earlier than `now − max_sync_hours` when a
checkpoint is present is false. -/
theorem syncWindow_stale_start_counterexample :
    (computeSyncWindow
        (some { symbol := "BTCUSDT", dataType := "kline",
                interval := some "1h", lastSyncTime := 0, lastDataTime := 1,
                status := "active", errorMessage := none, updatedAt := 0 })
        1700028800000 24).1 <
      1700028800000 - 24 * msPerHour := by
  decide

/-- C2 (amended): the backfill coordinator picks the window start by a
conditional, not a maximum: when a checkpoint row exists with nonzero
`last_data_time` the start is exactly that value (even when it is earlier
than `now − max_sync_hours`); when the checkpoint is absent or has
`last_data_time = 0` the start is `now − max_sync_hours`; the end is always
`now`. -/
theorem computeSyncWindow_start_selection :
    (∀ (st : SyncStatus) (now maxSyncHours : Int), st.lastDataTime ≠ 0 →
        computeSyncWindow (some st) now maxSyncHours = (st.lastDataTime, now)) ∧
    (∀ (st : SyncStatus) (now maxSyncHours : Int), st.lastDataTime = 0 →
        computeSyncWindow (some st) now maxSyncHours =
          (now - maxSyncHours * msPerHour, now)) ∧
    (∀ (now maxSyncHours : Int),
        computeSyncWindow none now maxSyncHours =
          (now - maxSyncHours * msPerHour, now)) := by
  refine ⟨?_, ?_, ?_⟩ <;> intros <;> simp [computeSyncWindow, *]

/-- Witness for the amended C2 theorem at the spec's backfill-resume
scenario: checkpoint `last_data_time = 1700000000000`, `now = 1700028800000`,
`max_sync_hours = 24`. -/
theorem computeSyncWindow_start_selection_witness :
    computeSyncWindow
        (some { symbol := "BTCUSDT", dataType := "kline",
                interval := some "1h", lastSyncTime := 0,
                lastDataTime := 1700000000000, status := "active",
                errorMessage := none, updatedAt := 0 })
        1700028800000 24 = (1700000000000, 1700028800000) :=
  computeSyncWindow_start_selection.1 _ 1700028800000 24 (by decide)

/-- C3: `ParseKlineResponse` is not total on malformed rows — an empty row
or a row with a wrong element type makes the Go code panic (unchecked
indexing and type assertions), while the function's error return is `none`
on every input, so the caller's skip-with-warning branch can never run. -/
theorem parseKlineResponse_panics_on_malformed :
    ParseKlineResponse [] = .panicked ∧
    ParseKlineResponse [.str "1699999999999"] = .panicked ∧
    (∀ data : List GoVal, parseKlineErrReturn (ParseKlineResponse data) = none) := by
  refine ⟨rfl, rfl, ?_⟩
  intro data
  unfold ParseKlineResponse
  apply goResult_bind_errReturn; intro _
  apply goResult_bind_errReturn; intro _
  apply goResult_bind_errReturn; intro _
  apply goResult_bind_errReturn; intro _
  apply goResult_bind_errReturn; intro _
  apply goResult_bind_errReturn; intro _
  apply goResult_bind_errReturn; intro _
  apply goResult_bind_errReturn; intro _
  apply goResult_bind_errReturn; intro _
  apply goResult_bind_errReturn; intro _
  apply goResult_bind_errReturn; intro _
  rfl

/-- C4: a streamed kline event whose closed flag `x` is false makes the
handler return nil having attempted no insert, no publish and no checkpoint
touch; an event with `x = true` is converted and then inserted, published
and checkpoint-touched with the converted kline's `open_time`. -/
theorem handleKlineEvent_closed_filter :
    ∀ (event : WSKlineEvent) (symbol interval : String) (nowMs : Int),
      (event.Kline.IsClosed = false →
          handleKlineEvent event symbol interval nowMs = ([], none)) ∧
      (event.Kline.IsClosed = true →
          handleKlineEvent event symbol interval nowMs =
            ([.insertKline (convertWSKlineToModel event symbol interval nowMs).1,
              .publishKline (convertWSKlineToModel event symbol interval nowMs).1,
              .touchLastDataTime symbol "kline" (some interval)
                (convertWSKlineToModel event symbol interval nowMs).1.openTime],
             none)) := by
  intro event symbol interval nowMs
  constructor
  · intro h
    simp [handleKlineEvent, h]
  · intro h
    simp [handleKlineEvent, h, convertWSKlineToModel]

/-- Witness for C4: a concrete in-progress candle event (`x = false`)
yields no effects and a nil return; the same event with `x = true` yields
exactly the insert, publish and checkpoint-touch effects. -/
theorem handleKlineEvent_closed_filter_witness :
    (handleKlineEvent
        { EventType := "kline", EventTime := 1, Symbol := "BTCUSDT",
          Kline := { StartTime := 1700000000000, EndTime := 1700000059999,
                     Symbol := "BTCUSDT", Interval := "1m", FirstTradeID := 0,
                     LastTradeID := 9, Open := "1.5", Close := "2.5",
                     High := "3.5", Low := "0.5", Volume := "10",
                     NumberOfTrades := 5, IsClosed := false,
                     QuoteVolume := "15", TakerBuyBaseAssetVolume := "4",
                     TakerBuyQuoteAssetVolume := "6" } }
        "BTCUSDT" "1m" 42 = ([], none)) ∧
    (handleKlineEvent
        { EventType := "kline", EventTime := 1, Symbol := "BTCUSDT",
          Kline := { StartTime := 1700000000000, EndTime := 1700000059999,
                     Symbol := "BTCUSDT", Interval := "1m", FirstTradeID := 0,
                     LastTradeID := 9, Open := "1.5", Close := "2.5",
                     High := "3.5", Low := "0.5", Volume := "10",
                     NumberOfTrades := 5, IsClosed := true,
                     QuoteVolume := "15", TakerBuyBaseAssetVolume := "4",
                     TakerBuyQuoteAssetVolume := "6" } }
        "BTCUSDT" "1m" 42 =
      ([.insertKline (convertWSKlineToModel
            { EventType := "kline", EventTime := 1, Symbol := "BTCUSDT",
              Kline := { StartTime := 1700000000000, EndTime := 1700000059999,
                         Symbol := "BTCUSDT", Interval := "1m",
                         FirstTradeID := 0, LastTradeID := 9, Open := "1.5",
                         Close := "2.5", High := "3.5", Low := "0.5",
                         Volume := "10", NumberOfTrades := 5, IsClosed := true,
                         QuoteVolume := "15", TakerBuyBaseAssetVolume := "4",
                         TakerBuyQuoteAssetVolume := "6" } }
            "BTCUSDT" "1m" 42).1,
        .publishKline (convertWSKlineToModel
            { EventType := "kline", EventTime := 1, Symbol := "BTCUSDT",
              Kline := { StartTime := 1700000000000, EndTime := 1700000059999,
                         Symbol := "BTCUSDT", Interval := "1m",
                         FirstTradeID := 0, LastTradeID := 9, Open := "1.5",
                         Close := "2.5", High := "3.5", Low := "0.5",
                         Volume := "10", NumberOfTrades := 5, IsClosed := true,
                         QuoteVolume := "15", TakerBuyBaseAssetVolume := "4",
                         TakerBuyQuoteAssetVolume := "6" } }
            "BTCUSDT" "1m" 42).1,
        .touchLastDataTime "BTCUSDT" "kline" (some "1m")
          (convertWSKlineToModel
            { EventType := "kline", EventTime := 1, Symbol := "BTCUSDT",
              Kline := { StartTime := 1700000000000, EndTime := 1700000059999,
                         Symbol := "BTCUSDT", Interval := "1m",
                         FirstTradeID := 0, LastTradeID := 9, Open := "1.5",
                         Close := "2.5", High := "3.5", Low := "0.5",
                         Volume := "10", NumberOfTrades := 5, IsClosed := true,
                         QuoteVolume := "15", TakerBuyBaseAssetVolume := "4",
                         TakerBuyQuoteAssetVolume := "6" } }
            "BTCUSDT" "1m" 42).1.openTime], none)) :=
  ⟨(handleKlineEvent_closed_filter _ "BTCUSDT" "1m" 42).1 rfl,
   (handleKlineEvent_closed_filter _ "BTCUSDT" "1m" 42).2 rfl⟩

/-- C7: `doRequest` returns the body unchanged exactly for a 200 status;
for any other status it returns an error and no body — the typed API error
with the upstream code preserved when the body unmarshals as `{code, msg}`,
and otherwise the generic error carrying the status and the body. -/
theorem doRequest_status_handling :
    ∀ (u : String → Option APIError) (resp : HTTPResponse),
      (resp.statusCode = 200 → doRequest u resp = .ok resp.body) ∧
      (resp.statusCode ≠ 200 →
        (∀ e, u resp.body = some e →
            doRequest u resp = .error (.api e.code e.message)) ∧
        (u resp.body = none →
            doRequest u resp = .error (.generic resp.statusCode resp.body))) := by
  intro u resp
  refine ⟨fun h => ?_, fun h => ⟨fun e he => ?_, fun h0 => ?_⟩⟩ <;>
    simp [doRequest, *]

/-- Witness for C7: a 400 response whose body unmarshals as
`{code = -1121, msg = "Invalid symbol."}` surfaces the typed API error, and
a 200 response returns its body. -/
theorem doRequest_status_handling_witness :
    doRequest (fun _ => some { code := -1121, message := "Invalid symbol." })
        { statusCode := 400, body := "ignored" } =
      .error (.api (-1121) "Invalid symbol.") ∧
    doRequest (fun _ => none) { statusCode := 200, body := "pong" } =
      .ok "pong" :=
  ⟨((doRequest_status_handling _ _).2 (by decide)).1 _ rfl,
   (doRequest_status_handling _ _).1 rfl⟩

/-- C8: both publishers emit the candle payload's `open_time` and
`close_time` as the model's millisecond values divided by 1000 with
truncating (toward-zero) integer division, while the envelope `timestamp`
stays the raw millisecond `open_time`. -/
theorem publishKline_payload_seconds :
    ∀ kline : Kline,
      (∃ pk : ProtoKlineData,
          (protobufPublishKlineMessage kline).payload = .kline pk ∧
          pk.openTime = Int.tdiv kline.openTime 1000 ∧
          pk.closeTime = Int.tdiv kline.closeTime 1000) ∧
      (protobufPublishKlineMessage kline).timestamp = kline.openTime ∧
      (jsonPublishKlineMessage kline).data.openTime =
        Int.tdiv kline.openTime 1000 ∧
      (jsonPublishKlineMessage kline).data.closeTime =
        Int.tdiv kline.closeTime 1000 ∧
      (jsonPublishKlineMessage kline).timestamp = kline.openTime := by
  intro kline
  exact ⟨⟨_, rfl, rfl, rfl⟩, rfl, rfl, rfl, rfl⟩

/-- C9: the placeholder `parsePriceLevels` returns an empty list and a nil
error for every input string, so the protobuf publisher's depth message
always carries empty bids and asks regardless of the snapshot's serialized
`Bids`/`Asks` content, and the parse-failure branches of `PublishDepth` are
unreachable. -/
theorem publishDepth_always_empty_levels :
    (∀ s : String, parsePriceLevels s = .ok []) ∧
    (∀ depth : DepthSnapshot,
        protobufPublishDepthMessage depth =
          .ok { type := .depth, symbol := depth.symbol,
                timestamp := depth.timestamp,
                payload := .depth { lastUpdateId := depth.lastUpdateID,
                                    bids := [], asks := [] } }) :=
  ⟨fun _ => rfl, fun _ => rfl⟩

/-- C5: a batch larger than `maxBatchSize` (100) is split into consecutive
sub-batches of at most 100 records whose concatenation is the input,
processed sequentially; when every sub-batch succeeds the whole batch is
committed with a nil return; when a sub-batch fails after an all-successful
prefix, exactly that prefix is committed, the failing sub-batch's error is
returned, and the result is independent of the sub-batches after the
failing one (they are never attempted); and within one sub-batch the
deferred rollback never runs after a successful commit. -/
theorem batchInsert_chunked_semantics :
    (∀ ks : List Kline,
        (chunkList maxBatchSize ks).flatten = ks ∧
        ∀ c ∈ chunkList maxBatchSize ks, c.length ≤ maxBatchSize) ∧
    (∀ (env : DBEnv) (db ks : List Kline),
        maxBatchSize < ks.length →
        (∀ c ∈ chunkList maxBatchSize ks, chunkErr env c = none) →
        BatchInsert env db ks = (db ++ ks, none)) ∧
    (∀ (env : DBEnv) (db ks : List Kline) (pre post : List (List Kline))
        (c : List Kline) (e : String),
        maxBatchSize < ks.length →
        chunkList maxBatchSize ks = pre ++ c :: post →
        (∀ c2 ∈ pre, chunkErr env c2 = none) →
        chunkErr env c = some e →
        BatchInsert env db ks = (db ++ pre.flatten, some e)) ∧
    (∀ (env : DBEnv) (db ks : List Kline),
        (executeBatchInsert env db ks).2.1 = none →
        (executeBatchInsert env db ks).2.2 = false) := by
  have hjoin : ∀ ks : List Kline, (chunkList maxBatchSize ks).flatten = ks :=
    fun ks => chunkListGo_join maxBatchSize (by decide) ks.length ks le_rfl
  refine ⟨fun ks => ⟨hjoin ks, fun c hc =>
    chunkListGo_mem_length maxBatchSize ks.length ks c hc⟩, ?_, ?_, ?_⟩
  · intro env db ks hlen hok
    unfold BatchInsert
    rw [if_neg (by omega), if_pos hlen]
    rw [← List.append_nil (chunkList maxBatchSize ks),
      runChunks_ok_prefix env _ db [] hok]
    simp [runChunks, hjoin ks]
  · intro env db ks pre post c e hlen hsplit hok hfail
    unfold BatchInsert
    rw [if_neg (by omega), if_pos hlen, hsplit,
      runChunks_ok_prefix env pre db (c :: post) hok,
      runChunks_first_err env _ c post e hfail]
  · intro env db ks
    rw [executeBatchInsert_eq_chunkErr]
    cases chunkErr env ks with
    | some e => intro h; simp at h
    | none => intro _; rfl

/-- Witness for C5: a 101-record batch against an error-free database
commits whole with a nil return; the same batch against a database whose
every insert fails returns the first chunk's error with nothing committed. -/
theorem batchInsert_chunked_semantics_witness :
    BatchInsert ⟨fun _ => none, fun _ => none⟩ []
        (List.replicate 101 default) = (List.replicate 101 default, none) ∧
    BatchInsert ⟨fun _ => some "boom", fun _ => none⟩ []
        (List.replicate 101 default) = ([], some "boom") :=
  ⟨batchInsert_chunked_semantics.2.1 _ _ _ (by decide) (by decide),
   batchInsert_chunked_semantics.2.2.1 _ _ _ [] [[default]]
     (List.replicate 100 default) "boom" (by decide) (by decide)
     (by decide) (by decide)⟩

/-- C6: starting from a reset counter, `max_reconnect_attempts` consecutive
dial failures terminate `Start` with the exhausted error; a successful dial
resets the attempt counter to zero (so the read failure that ends the
session does not increase it), and fewer than `max_reconnect_attempts`
consecutive dial failures followed by a successful dial leave the loop
exactly as if it were freshly started on the remaining trace. -/
theorem wsStart_reconnect_bound :
    (∀ (maxAttempts : Nat) (rest : List DialOutcome), 1 ≤ maxAttempts →
        wsStart maxAttempts
            (List.replicate maxAttempts .dialFail ++ rest) = .exhausted) ∧
    (∀ (maxAttempts attempt : Nat) (rest : List DialOutcome),
        wsStartGo maxAttempts attempt (.dialOkThenReadErr :: rest) =
          wsStartGo maxAttempts 0 rest) ∧
    (∀ (maxAttempts n : Nat) (rest : List DialOutcome), n < maxAttempts →
        wsStart maxAttempts
            (List.replicate n .dialFail ++ .dialOkThenReadErr :: rest) =
          wsStart maxAttempts rest) := by
  have hexh : ∀ (k maxAttempts attempt : Nat) (rest : List DialOutcome),
      1 ≤ k → maxAttempts ≤ attempt + k →
      wsStartGo maxAttempts attempt
        (List.replicate k .dialFail ++ rest) = .exhausted := by
    intro k
    induction k with
    | zero => intro _ _ _ h1 _; omega
    | succ n ih =>
        intro maxAttempts attempt rest _ h2
        simp only [List.replicate, List.cons_append, wsStartGo]
        by_cases h : maxAttempts ≤ attempt + 1
        · simp [h]
        · rw [if_neg h]
          exact ih maxAttempts (attempt + 1) rest (by omega) (by omega)
  have hadv : ∀ (n maxAttempts attempt : Nat) (rest : List DialOutcome),
      attempt + n < maxAttempts →
      wsStartGo maxAttempts attempt (List.replicate n .dialFail ++ rest) =
        wsStartGo maxAttempts (attempt + n) rest := by
    intro n
    induction n with
    | zero => intro _ _ _ _; simp
    | succ m ih =>
        intro maxAttempts attempt rest h
        simp only [List.replicate, List.cons_append, wsStartGo, List.append_eq]
        rw [if_neg (by omega), ih maxAttempts (attempt + 1) rest (by omega)]
        congr 1
        omega
  refine ⟨fun maxAttempts rest h1 => hexh maxAttempts maxAttempts 0 rest h1
    (by omega), fun _ _ _ => rfl, ?_⟩
  intro maxAttempts n rest hn
  unfold wsStart
  rw [hadv n maxAttempts 0 (.dialOkThenReadErr :: rest) (by omega)]
  rfl

/-- Witness for C6: with `max_reconnect_attempts = 3`, three consecutive
dial failures exhaust the client; two dial failures followed by a
successful dial (whose session ends in a read error) behave like a fresh
start on the remaining trace. -/
theorem wsStart_reconnect_bound_witness :
    wsStart 3 (List.replicate 3 .dialFail ++ []) = .exhausted ∧
    wsStart 3 (List.replicate 2 .dialFail ++
        .dialOkThenReadErr :: [.dialFail]) = wsStart 3 [.dialFail] :=
  ⟨wsStart_reconnect_bound.1 3 [] (by decide),
   wsStart_reconnect_bound.2.2 3 2 [.dialFail] (by decide)⟩

/-- C10: both candle converters always return a nil error, for every input
event or row; and every numeric string field whose float parse fails (the
discarded-error `strconv.ParseFloat` model yields `none`) is stored as 0 in
the resulting model instead of rejecting the event or row. -/
theorem converters_discard_parse_errors :
    ∀ (event : WSKlineEvent) (data : KlineData) (symbol interval : String)
      (nowMs : Int),
      (convertWSKlineToModel event symbol interval nowMs).2 = none ∧
      (convertToModelKline symbol interval data nowMs).2 = none ∧
      (goParseFloat event.Kline.Open = none →
          (convertWSKlineToModel event symbol interval nowMs).1.openPrice = 0) ∧
      (goParseFloat event.Kline.High = none →
          (convertWSKlineToModel event symbol interval nowMs).1.highPrice = 0) ∧
      (goParseFloat event.Kline.Low = none →
          (convertWSKlineToModel event symbol interval nowMs).1.lowPrice = 0) ∧
      (goParseFloat event.Kline.Close = none →
          (convertWSKlineToModel event symbol interval nowMs).1.closePrice = 0) ∧
      (goParseFloat event.Kline.Volume = none →
          (convertWSKlineToModel event symbol interval nowMs).1.volume = 0) ∧
      (goParseFloat event.Kline.QuoteVolume = none →
          (convertWSKlineToModel event symbol interval nowMs).1.quoteVolume = 0) ∧
      (goParseFloat event.Kline.TakerBuyBaseAssetVolume = none →
          (convertWSKlineToModel event symbol interval nowMs).1.takerBuyVolume = 0) ∧
      (goParseFloat event.Kline.TakerBuyQuoteAssetVolume = none →
          (convertWSKlineToModel event symbol interval nowMs).1.takerBuyQuoteVolume = 0) ∧
      (goParseFloat data.Open = none →
          (convertToModelKline symbol interval data nowMs).1.openPrice = 0) ∧
      (goParseFloat data.High = none →
          (convertToModelKline symbol interval data nowMs).1.highPrice = 0) ∧
      (goParseFloat data.Low = none →
          (convertToModelKline symbol interval data nowMs).1.lowPrice = 0) ∧
      (goParseFloat data.Close = none →
          (convertToModelKline symbol interval data nowMs).1.closePrice = 0) ∧
      (goParseFloat data.Volume = none →
          (convertToModelKline symbol interval data nowMs).1.volume = 0) ∧
      (goParseFloat data.QuoteAssetVolume = none →
          (convertToModelKline symbol interval data nowMs).1.quoteVolume = 0) ∧
      (goParseFloat data.TakerBuyBaseAssetVolume = none →
          (convertToModelKline symbol interval data nowMs).1.takerBuyVolume = 0) ∧
      (goParseFloat data.TakerBuyQuoteAssetVolume = none →
          (convertToModelKline symbol interval data nowMs).1.takerBuyQuoteVolume = 0) := by
  intro event data symbol interval nowMs
  refine ⟨rfl, rfl, ?_, ?_, ?_, ?_, ?_, ?_, ?_, ?_, ?_, ?_, ?_, ?_, ?_, ?_,
    ?_, ?_⟩ <;>
  · intro h
    simp [convertWSKlineToModel, convertToModelKline, parseFloatOrZero, h]

/-- Witness for C10: a streamed kline whose `Open` field is the
unparseable string `abc` converts with a nil error and a zero open price. -/
theorem converters_discard_parse_errors_witness :
    (convertWSKlineToModel
        { EventType := "kline", EventTime := 1, Symbol := "BTCUSDT",
          Kline := { StartTime := 0, EndTime := 0, Symbol := "BTCUSDT",
                     Interval := "1m", FirstTradeID := 0, LastTradeID := 0,
                     Open := "abc", Close := "2", High := "3", Low := "1",
                     Volume := "4", NumberOfTrades := 0, IsClosed := true,
                     QuoteVolume := "5", TakerBuyBaseAssetVolume := "6",
                     TakerBuyQuoteAssetVolume := "7" } }
        "BTCUSDT" "1m" 0).2 = none ∧
    (convertWSKlineToModel
        { EventType := "kline", EventTime := 1, Symbol := "BTCUSDT",
          Kline := { StartTime := 0, EndTime := 0, Symbol := "BTCUSDT",
                     Interval := "1m", FirstTradeID := 0, LastTradeID := 0,
                     Open := "abc", Close := "2", High := "3", Low := "1",
                     Volume := "4", NumberOfTrades := 0, IsClosed := true,
                     QuoteVolume := "5", TakerBuyBaseAssetVolume := "6",
                     TakerBuyQuoteAssetVolume := "7" } }
        "BTCUSDT" "1m" 0).1.openPrice = 0 :=
  ⟨(converters_discard_parse_errors _
      { OpenTime := 0, Open := "1", High := "1", Low := "1", Close := "1",
        Volume := "1", CloseTime := 0, QuoteAssetVolume := "1",
        NumberOfTrades := 0, TakerBuyBaseAssetVolume := "1",
        TakerBuyQuoteAssetVolume := "1" }
      "BTCUSDT" "1m" 0).1,
   ((converters_discard_parse_errors _
      { OpenTime := 0, Open := "1", High := "1", Low := "1", Close := "1",
        Volume := "1", CloseTime := 0, QuoteAssetVolume := "1",
        NumberOfTrades := 0, TakerBuyBaseAssetVolume := "1",
        TakerBuyQuoteAssetVolume := "1" }
      "BTCUSDT" "1m" 0).2.2.1 (by decide))⟩

end BinanceLive
